import Mathlib

/-!
Shallow embedding of the bounded multipart upload ingestion subsystem of this
repository: the constructor `newUploadedFile`, the persistence path
`UploadedFile.write` / `uploadedfileSave` / `uploadedfileSaveIn`, the accessor
`uploadedfileSize`, and the path resolution they rely on.  Machine integers are
modelled as `Int`/`Nat` (the quantities involved are far below the `int64`
range, and the source performs no wrapping arithmetic), the filesystem as a map
from paths to byte lists, and the request as the abstract outcome of the Go
standard-library calls the constructor makes (header lookup plus `Atoi`,
`ParseMultipartForm`, `FormFile`).
-/

namespace Algernon

/-- Modelled from the spec: the `MiB` byte-unit constant (1 MiB = 1048576
bytes) used by the source for `32 * MiB` limits; the constant itself is defined
outside the provided source files. -/
def MiB : Nat := 1024 * 1024

/-- Source: `defaultUploadLimit int64 = 32 * MiB`. -/
def defaultUploadLimit : Int := (32 * MiB : Nat)

/-- Source: `defaultMemoryLimit int64 = 32 * MiB`. -/
def defaultMemoryLimit : Nat := 32 * MiB

/-- Source: `chunkSize = defaultMemoryLimit` (the `4 * KiB` choice is
commented out in the source). -/
def chunkSize : Nat := defaultMemoryLimit

/-- The named multipart form part, as returned by `req.FormFile(formID)`:
the client-supplied file name, the bytes the part's reader delivers, and the
kind of terminal condition its reader reports after them (`streamErr = false`
for a clean EOF, `true` for a read error).  Because `req.ParseMultipartForm`
has already consumed and buffered the entire request body by the time
`FormFile` is called, a realizable part always ends cleanly
(`streamErr = false`); a mid-body client disconnect instead fails the parse
itself (`Request.multipartOK = false`).  The flag is kept so that the
`io.CopyN` error contract is rendered faithfully, and the copy-loop theorems
quantify over it, showing the loop's outcome does not depend on it. -/
structure FormFilePart where
  filename : String
  content : List Nat
  streamErr : Bool
deriving DecidableEq

/-- The incoming request, abstracted to the three observations the constructor
makes of it: the result of `strconv.Atoi(req.Header.Get("Content-Length"))`
(`none` means the header is absent or unparsable, in which case `Atoi` yields
value `0` together with an error — the Go HTTP server rejects requests with a
present-but-invalid Content-Length before a handler runs), whether
`req.ParseMultipartForm` succeeds, and the outcome of `req.FormFile(formID)`
(`none` = field missing, in which case the returned file handle is nil). -/
structure Request where
  contentLengthHeader : Option Int
  multipartOK : Bool
  formFile : Option FormFilePart
deriving DecidableEq

/-- The `UploadedFile` struct.  The source also retains the request pointer and
the part's MIME header; neither is consulted by the operations the claims are
about, so they are omitted.  `buf` is the unread content of the
`bytes.Buffer`. -/
structure UploadedFile where
  scriptdir : String
  filename : String
  buf : List Nat
deriving DecidableEq

/-- Outcome of the constructor: `ok` models `(&UploadedFile{...}, nil)`,
`err` models `(nil, error)`, and `crash` models a Go runtime panic escaping
the function (so the caller never receives a return value). -/
inductive UploadResult where
  | ok (uf : UploadedFile)
  | err (msg : String)
  | crash (msg : String)
deriving DecidableEq

/-- Outcome of the chunked copy loop: the too-large abort, the (dead)
copy-error return, or normal loop exit with the final total and the buffer
contents accumulated so far (before `Truncate`). -/
inductive LoopResult where
  | tooLarge (totalWritten : Nat)
  | readErr
  | done (totalWritten : Nat) (buf : List Nat)
deriving DecidableEq

/-- The error value produced by `io.CopyN(buf, file, chunkSize)`: `none` means
nil (exactly `chunkSize` bytes were copied), `some false` means `io.EOF`
(source cleanly exhausted before a full chunk), `some true` means a genuine
read error (source erred before a full chunk).  Per the `io.CopyN` contract
the error is nil if and only if the full `chunkSize` bytes were copied. -/
def copyErr (se : Bool) (written : Nat) : Option Bool :=
  if written < chunkSize then some se else none

/-- The `for i = 0; i < int64(buf.Len()); i += chunkSize` loop of
`newUploadedFile`.  Each iteration appends up to `chunkSize` bytes of the
remaining source to `buf` (Go's `bytes.Buffer` appends after its existing
unread content), adds the copied count to `totalWritten`, then checks, in
source order: too large → abort; short chunk or EOF → break; copy error →
return the error (unreachable, since a short chunk already broke); otherwise
continue. -/
def copyLoop (se : Bool) (limit : Nat) (remaining : List Nat) (i tw : Nat)
    (buf : List Nat) : LoopResult :=
  if i < buf.length then
    if limit < tw + min chunkSize remaining.length then
      .tooLarge (tw + min chunkSize remaining.length)
    else if hshort : min chunkSize remaining.length < chunkSize ∨
        copyErr se (min chunkSize remaining.length) = some false then
      .done (tw + min chunkSize remaining.length) (buf ++ remaining.take chunkSize)
    else if copyErr se (min chunkSize remaining.length) ≠ none then
      .readErr
    else
      copyLoop se limit (remaining.drop chunkSize) (i + chunkSize)
        (tw + min chunkSize remaining.length) (buf ++ remaining.take chunkSize)
  else
    .done tw buf
termination_by remaining.length
decreasing_by
  have hc : 0 < chunkSize := by norm_num [chunkSize, defaultMemoryLimit, MiB]
  have h1 : ¬ min chunkSize remaining.length < chunkSize := fun h => hshort (Or.inl h)
  have h2 : chunkSize ≤ remaining.length := by omega
  simp only [List.length_drop]
  omega

/-- Modelled from the spec: the source formats byte counts for error messages
with a helper (`describeBytes`) defined outside the provided source files;
only the non-emptiness of the resulting message matters for the claims. -/
def describeBytes (n : Int) : String := toString n

/-- The precheck error message of `newUploadedFile`. -/
def tooLargePrecheckMsg (clientLength uploadLimit : Int) : String :=
  "Uploaded file was too large: " ++ describeBytes clientLength ++
    " according to Content-Length (current limit is " ++ describeBytes uploadLimit ++ ")"

/-- The streaming-ceiling error message of `newUploadedFile`. -/
def tooLargeStreamingMsg (totalWritten limit : Nat) : String :=
  "Uploaded file was too large: " ++ toString totalWritten ++
    " bytes (limit is " ++ toString limit ++ " bytes)"

/-- Stand-in for the error returned by `req.ParseMultipartForm` on failure
(produced by the Go standard library, outside the provided source files).
The parse reads the entire request body, so this is also where a mid-body
client disconnect or any other stream-read failure surfaces. -/
def multipartErrMsg : String := "http: multipart form parse error"

/-- Stand-in for a mid-copy error returned through the loop's (unreachable)
`err != nil` branch. -/
def copyErrMsg : String := "error copying uploaded data"

/-- The Go runtime panic message for calling a method on a nil interface,
raised by the deferred `file.Close()` when `req.FormFile` returned an error
(and hence a nil file handle). -/
def nilDerefMsg : String := "runtime error: invalid memory address or nil pointer dereference"

/-- The Go runtime panic message for `make([]byte, n)` with negative `n`. -/
def makesliceMsg : String := "runtime error: makeslice: len out of range"

/-- The part of `newUploadedFile` after the Content-Length precheck:
`ParseMultipartForm`, `FormFile` (with the deferred `file.Close()` that
panics on a nil handle), the `make([]byte, uploadLimit)` allocation (which
panics for negative sizes), `bytes.NewBuffer(data)` — whose initial unread
content is the `uploadLimit` zero bytes of `data` — the chunked copy loop,
and the final `buf.Truncate(int(totalWritten))`, which keeps the first
`totalWritten` unread bytes. -/
def afterPrecheck (req : Request) (scriptdir : String) (uploadLimit : Int) : UploadResult :=
  if req.multipartOK = false then .err multipartErrMsg
  else
    match req.formFile with
    | none => .crash nilDerefMsg
    | some part =>
      if uploadLimit < 0 then .crash makesliceMsg
      else
        match copyLoop part.streamErr uploadLimit.toNat part.content 0 0
            (List.replicate uploadLimit.toNat 0) with
        | .tooLarge tw => .err (tooLargeStreamingMsg tw uploadLimit.toNat)
        | .readErr => .err copyErrMsg
        | .done tw buf2 =>
          .ok { scriptdir := scriptdir, filename := part.filename, buf := buf2.take tw }

/-- The constructor `newUploadedFile(req, scriptdir, formID, uploadLimit)`.
`clientLengthTotal` is the `Atoi` value of the Content-Length header (0 when
the header is absent or unparsable), the source subtracts 20 bytes of framing
allowance, and rejects immediately when the adjusted declared length exceeds
the limit. -/
def newUploadedFile (req : Request) (scriptdir : String) (uploadLimit : Int) : UploadResult :=
  let clientLengthTotal : Int := req.contentLengthHeader.getD 0
  let clientLength : Int := clientLengthTotal - 20
  if clientLength > uploadLimit then .err (tooLargePrecheckMsg clientLength uploadLimit)
  else afterPrecheck req scriptdir uploadLimit

/-- The diagnostics `newUploadedFile` emits through `log.Error`: exactly one
entry, when `Atoi` on the Content-Length header fails (header absent or
unparsable). -/
def newUploadedFileLogs (req : Request) : List String :=
  match req.contentLengthHeader with
  | none => ["Invalid Content-Length: "]
  | some _ => []

/-- Splits a character list on `/` separators (components may be empty). -/
def splitOnSlash : List Char → List (List Char)
  | [] => [[]]
  | '/' :: rest => [] :: splitOnSlash rest
  | c :: rest =>
    match splitOnSlash rest with
    | [] => [[c]]
    | comp :: comps => (c :: comp) :: comps

/-- The component-processing pass of Go's `filepath.Clean` (Unix rules):
empty and `.` components are dropped, `..` pops the previous component unless
there is none (kept for relative paths, dropped at the root), everything else
is kept.  The first list is the processed stack in reverse order. -/
def cleanCore (rooted : Bool) : List (List Char) → List (List Char) → List (List Char)
  | stack, [] => stack.reverse
  | stack, comp :: comps =>
    if comp = [] ∨ comp = ['.'] then cleanCore rooted stack comps
    else if comp = ['.', '.'] then
      match stack with
      | [] =>
        if rooted then cleanCore rooted [] comps
        else cleanCore rooted [['.', '.']] comps
      | top :: rest =>
        if top = ['.', '.'] then cleanCore rooted (comp :: top :: rest) comps
        else cleanCore rooted rest comps
    else cleanCore rooted (comp :: stack) comps

/-- Joins path components with `/` separators. -/
def joinComps : List (List Char) → List Char
  | [] => []
  | [c] => c
  | c :: cs => c ++ '/' :: joinComps cs

/-- Go's `filepath.Clean` for Unix paths. -/
def pathClean (p : String) : String :=
  match p.data with
  | [] => "."
  | c :: cs =>
    let rooted := c = '/'
    let body := joinComps (cleanCore rooted [] (splitOnSlash (c :: cs)))
    if rooted then String.mk ('/' :: body)
    else if body = [] then "." else String.mk body

/-- Go's `filepath.Join`: skip leading empty elements, join the rest with
`/`, and `Clean` the result; all-empty input yields the empty string. -/
def filepathJoin (elems : List String) : String :=
  match elems.dropWhile (fun e => e = "") with
  | [] => ""
  | es => pathClean (String.mk (joinComps (es.map String.data)))

/-- Go's `filepath.IsAbs` for Unix paths. -/
def filepathIsAbs (p : String) : Bool :=
  match p.data with
  | '/' :: _ => true
  | _ => false

/-- The filesystem, as a map from full path names to file contents. -/
abbrev FS : Type := String → Option (List Nat)

/-- The method `UploadedFile.write(fullFilename)`: if the destination exists
(`os.Stat` succeeds) it fails with a "File exists" error and changes nothing;
otherwise it creates the file and `io.Copy(f, ulf.buf)` transfers the
buffer's unread bytes into it, draining the buffer (a `bytes.Buffer` read
consumes its content).  I/O faults of the underlying disk are not modelled.
Returns the error, the updated filesystem and the updated receiver. -/
def write (ulf : UploadedFile) (fullFilename : String) (fs : FS) :
    Option String × FS × UploadedFile :=
  match fs fullFilename with
  | some _ => (some ("File exists: " ++ fullFilename), fs, ulf)
  | none =>
    (none, fun p => if p = fullFilename then some ulf.buf else fs p,
      { ulf with buf := ([] : List Nat) })

/-- Destination resolution of `uploadedfileSave`: the optional given filename
(empty string = not given, falling back to the artifact's own filename)
joined under the script directory. -/
def saveDest (ulf : UploadedFile) (givenFilename : String) : String :=
  filepathJoin [ulf.scriptdir, if givenFilename = "" then ulf.filename else givenFilename]

/-- The Lua-facing `save` method: resolves the destination and writes,
pushing `true` exactly when `write` returned a nil error. -/
def uploadedfileSave (ulf : UploadedFile) (givenFilename : String) (fs : FS) :
    Bool × FS × UploadedFile :=
  match write ulf (saveDest ulf givenFilename) fs with
  | (e, fs2, ulf2) => (e.isNone, fs2, ulf2)

/-- Destination resolution of `uploadedfileSaveIn`: an absolute directory is
joined directly with the artifact's filename, a relative one is joined under
the script directory first. -/
def saveInDest (ulf : UploadedFile) (givenDirectory : String) : String :=
  if filepathIsAbs givenDirectory then filepathJoin [givenDirectory, ulf.filename]
  else filepathJoin [ulf.scriptdir, givenDirectory, ulf.filename]

/-- The Lua-facing `savein` method. -/
def uploadedfileSaveIn (ulf : UploadedFile) (givenDirectory : String) (fs : FS) :
    Bool × FS × UploadedFile :=
  match write ulf (saveInDest ulf givenDirectory) fs with
  | (e, fs2, ulf2) => (e.isNone, fs2, ulf2)

/-- The Lua-facing `size` method: `ulf.buf.Len()`, the unread byte count of
the buffer. -/
def uploadedfileSize (ulf : UploadedFile) : Nat := ulf.buf.length

/-- An empty filesystem, used by concrete witnesses. -/
def emptyFS : FS := fun _ => none

/-- Holds of a constructor outcome that is the `(nil, message)` pair with a
non-empty message that is one of the source's "too large" errors. -/
def UploadResult.tooLargeFailure : UploadResult → Prop
  | .err msg => msg ≠ "" ∧ "Uploaded file was too large".data <+: msg.data
  | _ => False

/-- A one-byte upload part (the single byte 1) with a clean end of stream. -/
def partC1 : FormFilePart := { filename := "f.txt", content := [1], streamErr := false }

/-- A request carrying `partC1` whose Content-Length declares 21 bytes
(21 - 20 = 1 byte of payload after the framing allowance). -/
def reqC1 : Request := { contentLengthHeader := some 21, multipartOK := true, formFile := some partC1 }

/-- The artifact the constructor actually produces from `reqC1` with a
1-byte limit: the size is right but the retained byte is the zero from the
pre-sized buffer, not the uploaded byte 1. -/
def ufC1 : UploadedFile := { scriptdir := "srv", filename := "f.txt", buf := [0] }

/-- A one-byte upload part with the Content-Length header absent. -/
def partC2 : FormFilePart := { filename := "a.bin", content := [1], streamErr := false }

/-- A request carrying `partC2` with no Content-Length header. -/
def reqC2 : Request := { contentLengthHeader := none, multipartOK := true, formFile := some partC2 }

/-- A two-byte upload part, used against a 1-byte limit. -/
def partC2w : FormFilePart := { filename := "b.bin", content := [1, 2], streamErr := false }

/-- A request carrying `partC2w` with no Content-Length header. -/
def reqC2w : Request := { contentLengthHeader := none, multipartOK := true, formFile := some partC2w }

/-- A request whose client disconnected mid-body: `ParseMultipartForm`,
which reads the whole body, fails, so no form part is available.  The
declared length (25, i.e. 5 payload bytes after the framing allowance) is
within the limits the scenario uses. -/
def reqC3d : Request := { contentLengthHeader := some 25, multipartOK := false, formFile := none }

/-- A multipart request in which the named form field is missing. -/
def reqC4 : Request := { contentLengthHeader := some 25, multipartOK := true, formFile := none }

/-- A two-byte artifact under script directory "web", used by save witnesses. -/
def ulfW : UploadedFile := { scriptdir := "web", filename := "up.txt", buf := [9, 8] }

/-- A one-byte artifact under script directory "web", used by the savein
witness. -/
def ulfW8 : UploadedFile := { scriptdir := "web", filename := "w.txt", buf := [1] }

theorem chunkSize_pos : 0 < chunkSize := by
  norm_num [chunkSize, defaultMemoryLimit, MiB]

/-- Characterization of the copy loop for a positive limit, starting (as the
constructor does) with `i = tw` and a buffer of length `limit + tw`: if the
deliverable bytes push the running total past the limit the loop aborts with
a too-large result, and otherwise it finishes with the exact byte count and
the source bytes appended after the buffer's existing content. -/
theorem copyLoop_spec (se : Bool) (limit : Nat) (hl : 0 < limit) :
    ∀ (n : Nat) (remaining : List Nat) (tw : Nat) (buf : List Nat),
      remaining.length ≤ n → buf.length = limit + tw →
      (limit < tw + remaining.length →
        ∃ tw2, copyLoop se limit remaining tw tw buf = .tooLarge tw2 ∧ limit < tw2) ∧
      (tw + remaining.length ≤ limit →
        copyLoop se limit remaining tw tw buf = .done (tw + remaining.length) (buf ++ remaining)) := by
  intro n
  induction n with
  | zero =>
    intro remaining tw buf hn hbuf
    have hrem : remaining = [] := List.eq_nil_of_length_eq_zero (Nat.le_zero.mp hn)
    subst hrem
    have hc := chunkSize_pos
    have hin : tw < buf.length := by simp only [hbuf]; omega
    constructor
    · intro hgt
      refine ⟨tw + min chunkSize ([] : List Nat).length, ?_, ?_⟩
      · rw [copyLoop, if_pos hin, if_pos]
        simpa using hgt
      · simpa using hgt
    · intro hle
      rw [copyLoop, if_pos hin, if_neg (by simpa using hle), dif_pos (Or.inl (by simpa using hc))]
      simp
  | succ n ih =>
    intro remaining tw buf hn hbuf
    have hc := chunkSize_pos
    have hin : tw < buf.length := by simp only [hbuf]; omega
    rcases Nat.lt_or_ge remaining.length chunkSize with hlt | hge
    · have hmin : min chunkSize remaining.length = remaining.length :=
        Nat.min_eq_right (Nat.le_of_lt hlt)
      have htake : remaining.take chunkSize = remaining :=
        List.take_of_length_le (Nat.le_of_lt hlt)
      constructor
      · intro hgt
        refine ⟨tw + remaining.length, ?_, hgt⟩
        rw [copyLoop, if_pos hin, if_pos (by omega)]
        rw [hmin]
      · intro hle
        rw [copyLoop, if_pos hin, if_neg (by omega), dif_pos (Or.inl (by omega)), hmin, htake]
    · have hmin : min chunkSize remaining.length = chunkSize := Nat.min_eq_left hge
      have hlen_take : (remaining.take chunkSize).length = chunkSize := by
        simp [List.length_take, Nat.min_eq_left hge]
      by_cases h2 : limit < tw + chunkSize
      · constructor
        · intro hgt
          refine ⟨tw + chunkSize, ?_, h2⟩
          rw [copyLoop, if_pos hin, if_pos (by omega)]
          rw [hmin]
        · intro hle; omega
      · have hce : copyErr se (min chunkSize remaining.length) = none := by
          simp [copyErr, hmin]
        have ihs := ih (remaining.drop chunkSize) (tw + chunkSize)
          (buf ++ remaining.take chunkSize)
          (by simp only [List.length_drop]; omega)
          (by simp only [List.length_append, hlen_take, hbuf]; omega)
        have hnot3 : ¬(min chunkSize remaining.length < chunkSize ∨
            copyErr se (min chunkSize remaining.length) = some false) := by
          rw [hmin]
          simp [copyErr]
        have hnot4 : ¬(copyErr se (min chunkSize remaining.length) ≠ none) := by
          simp [hce]
        have hrw : copyLoop se limit remaining tw tw buf =
            copyLoop se limit (remaining.drop chunkSize) (tw + chunkSize) (tw + chunkSize)
              (buf ++ remaining.take chunkSize) := by
          rw [copyLoop, if_pos hin, if_neg (by omega), dif_neg hnot3, if_neg hnot4, hmin]
        have hdl : (remaining.drop chunkSize).length = remaining.length - chunkSize := by
          simp [List.length_drop]
        constructor
        · intro hgt
          obtain ⟨tw2, heq, hlt2⟩ := ihs.1 (by omega)
          exact ⟨tw2, by rw [hrw, heq], hlt2⟩
        · intro hle
          rw [hrw, ihs.2 (by omega)]
          congr 1
          · omega
          · rw [List.append_assoc, List.take_append_drop]

theorem tooLargeFailure_precheck (cl ul : Int) :
    (UploadResult.err (tooLargePrecheckMsg cl ul)).tooLargeFailure := by
  refine ⟨?_, ?_⟩
  · intro h
    have h2 := congrArg String.data h
    simp [tooLargePrecheckMsg, describeBytes, String.data_append] at h2
  · show "Uploaded file was too large".data <+: (tooLargePrecheckMsg cl ul).data
    simp only [tooLargePrecheckMsg, describeBytes, String.data_append, List.append_assoc]
    exact List.IsPrefix.trans (by decide) (List.prefix_append _ _)

theorem tooLargeFailure_streaming (tw l : Nat) :
    (UploadResult.err (tooLargeStreamingMsg tw l)).tooLargeFailure := by
  refine ⟨?_, ?_⟩
  · intro h
    have h2 := congrArg String.data h
    simp [tooLargeStreamingMsg, String.data_append] at h2
  · show "Uploaded file was too large".data <+: (tooLargeStreamingMsg tw l).data
    simp only [tooLargeStreamingMsg, String.data_append, List.append_assoc]
    exact List.IsPrefix.trans (by decide) (List.prefix_append _ _)

/-- Evaluation of the constructor on `reqC1` with a 1-byte limit: it succeeds
with the right size but a zeroed buffer. -/
theorem newUploadedFile_reqC1_eval : newUploadedFile reqC1 "srv" 1 = .ok ufC1 := by
  have hloop := (copyLoop_spec false 1 one_pos 1 [1] 0 (List.replicate 1 0)
    (by simp) (by simp)).2 (by simp)
  simp only [List.replicate, List.length_cons, List.length_nil, Nat.zero_add,
    List.singleton_append] at hloop
  norm_num [newUploadedFile, afterPrecheck, reqC1, partC1, ufC1, hloop]

/-- C1: on a request whose 1-byte body is within the 1-byte limit, the
constructor succeeds and `size()` equals the exact number of bytes
transferred, but the retained buffer is NOT byte-for-byte equal to the source
content: `bytes.NewBuffer(make([]byte, uploadLimit))` starts with
`uploadLimit` zero bytes as its unread content, the copied data lands after
them, and `Truncate(totalWritten)` keeps the leading zeros — so a later save
writes zeros, not the upload.  This evaluates the code at the failing input
for the claim's byte-for-byte clause. -/
theorem C1_retained_bytes_not_source :
    newUploadedFile reqC1 "srv" 1 = .ok ufC1 ∧
    uploadedfileSize ufC1 = partC1.content.length ∧
    ufC1.buf ≠ partC1.content :=
  ⟨newUploadedFile_reqC1_eval, by decide, by decide⟩

/-- C2 counterexample: with a configured limit of 0 bytes and an absent
Content-Length header, a request whose actual body is 1 byte — strictly
larger than the limit — is NOT rejected: the copy loop's entry condition
`i < buf.Len()` is false for a zero-length buffer, so construction succeeds
with an empty artifact instead of failing with a too-large error. -/
theorem C2_zero_limit_accepts_oversize :
    newUploadedFile reqC2 "srv" 0 = .ok { scriptdir := "srv", filename := "a.bin", buf := [] } := by
  have hloop : copyLoop false 0 [1] 0 0 [] = .done 0 [] := by
    rw [copyLoop]
    norm_num
  norm_num [newUploadedFile, afterPrecheck, reqC2, partC2, hloop]

/-- C2 (amended): for every request whose actual body size exceeds a
POSITIVE configured limit — regardless of whether the declared Content-Length
header is present, correct, or wrong, and regardless of how the stream ends —
provided the multipart form parses and the named field is present,
construction fails with a non-empty too-large error message returned as
`(nil, message)` (and the constructor performs no filesystem write). -/
theorem C2_oversize_rejected (req : Request) (sd : String) (uploadLimit : Int)
    (part : FormFilePart) (hl : 0 < uploadLimit) (hm : req.multipartOK = true)
    (hf : req.formFile = some part) (hsz : uploadLimit.toNat < part.content.length) :
    (newUploadedFile req sd uploadLimit).tooLargeFailure := by
  by_cases hpre : req.contentLengthHeader.getD 0 - 20 > uploadLimit
  · have heq : newUploadedFile req sd uploadLimit =
        .err (tooLargePrecheckMsg (req.contentLengthHeader.getD 0 - 20) uploadLimit) := by
      simp [newUploadedFile, hpre]
    rw [heq]
    exact tooLargeFailure_precheck _ _
  · have hlN : 0 < uploadLimit.toNat := by omega
    obtain ⟨tw2, hcl, hgt⟩ := (copyLoop_spec part.streamErr uploadLimit.toNat hlN
      part.content.length part.content 0 (List.replicate uploadLimit.toNat 0) le_rfl
      (by simp)).1 (by omega)
    have hnneg : ¬ uploadLimit < 0 := by omega
    have heq : newUploadedFile req sd uploadLimit =
        .err (tooLargeStreamingMsg tw2 uploadLimit.toNat) := by
      simp [newUploadedFile, hpre, afterPrecheck, hm, hf, hnneg, hcl]
    rw [heq]
    exact tooLargeFailure_streaming _ _

/-- C2 amended witness: a 2-byte body against a 1-byte limit with the header
absent is rejected with a non-empty too-large error. -/
theorem C2_oversize_rejected_witness : (newUploadedFile reqC2w "srv" 1).tooLargeFailure :=
  C2_oversize_rejected reqC2w "srv" 1 partC2w (by decide) rfl rfl (by decide)

/-- C3: a byte source that errs mid-stream (a client disconnect) while the
running total is within the configured limit aborts construction with a
stream-read error returned as `(nil, non-empty message)`, the same
`(nil, message)` failure convention as a size violation.  The disconnect
surfaces at `req.ParseMultipartForm`, which reads the entire body before the
copy loop ever runs (the part handle `FormFile` later returns is fully
buffered), so whenever the request passes the declared-length precheck and
the parse fails, the constructor returns the error directly; it performs no
filesystem write, so no partial file exists anywhere. -/
theorem C3_disconnect_aborts (req : Request) (sd : String) (uploadLimit : Int)
    (hm : req.multipartOK = false)
    (hpre : req.contentLengthHeader.getD 0 - 20 ≤ uploadLimit) :
    newUploadedFile req sd uploadLimit = .err multipartErrMsg ∧ multipartErrMsg ≠ "" := by
  have hno : ¬(req.contentLengthHeader.getD 0 - 20 > uploadLimit) := by omega
  exact ⟨by simp [newUploadedFile, hno, afterPrecheck, hm], by decide⟩

/-- C3 witness: a disconnect during a request announcing 5 payload bytes
against a 10-byte limit yields the `(nil, message)` abort. -/
theorem C3_disconnect_aborts_witness :
    newUploadedFile reqC3d "srv" 10 = .err multipartErrMsg :=
  (C3_disconnect_aborts reqC3d "srv" 10 rfl (by decide)).1

/-- C4: when the named form field is absent, `req.FormFile` returns a nil
file handle together with an error, and the `defer file.Close()` placed
before the error check calls a method on the nil interface: the constructor
panics (terminates abnormally) instead of returning the documented
`(nil, message)` pair. -/
theorem C4_missing_field_panics :
    newUploadedFile reqC4 "srv" 100 = .crash nilDerefMsg := by
  norm_num [newUploadedFile, afterPrecheck, reqC4]

/-- C5 counterexample: with a 1-byte limit and a 1-byte upload, during
construction (after the copy, before `Truncate`) the buffer holds 2 bytes —
the pre-sized zero byte plus the appended upload — exceeding the configured
limit, refuting the claim's "never resized upward beyond the configured
limit" clause. -/
theorem C5_buffer_grows_past_limit :
    copyLoop false 1 [7] 0 0 (List.replicate 1 0) = .done 1 [0, 7] ∧
    1 < ([0, 7] : List Nat).length := by
  constructor
  · have h := (copyLoop_spec false 1 one_pos 1 [7] 0 (List.replicate 1 0)
      (by simp) (by simp)).2 (by simp)
    simpa [List.replicate] using h
  · decide

/-- C5 (amended): whenever construction completes successfully, the
artifact's reported size equals its byte count, which equals the loop's
`totalWritten` and is at most the configured limit; but during construction
the pre-truncation buffer reaches length `configuredLimit + totalWritten`,
which exceeds the configured limit whenever any byte was copied. -/
theorem C5_post_invariant (req : Request) (sd : String) (uploadLimit : Int)
    (uf : UploadedFile) (part : FormFilePart) (hf : req.formFile = some part)
    (hok : newUploadedFile req sd uploadLimit = .ok uf) :
    uploadedfileSize uf = uf.buf.length ∧ uf.buf.length ≤ uploadLimit.toNat ∧
    ∃ preBuf tw, copyLoop part.streamErr uploadLimit.toNat part.content 0 0
        (List.replicate uploadLimit.toNat 0) = .done tw preBuf ∧
      uf.buf = preBuf.take tw ∧ uf.buf.length = tw ∧
      preBuf.length = uploadLimit.toNat + tw := by
  unfold newUploadedFile at hok
  by_cases hpre : req.contentLengthHeader.getD 0 - 20 > uploadLimit
  · rw [if_pos hpre] at hok
    simp at hok
  · rw [if_neg hpre] at hok
    unfold afterPrecheck at hok
    by_cases hm : req.multipartOK = false
    · rw [if_pos hm] at hok
      simp at hok
    · rw [if_neg hm, hf] at hok
      have hok2 : (if uploadLimit < 0 then UploadResult.crash makesliceMsg
          else
            match copyLoop part.streamErr uploadLimit.toNat part.content 0 0
                (List.replicate uploadLimit.toNat 0) with
            | .tooLarge tw => UploadResult.err (tooLargeStreamingMsg tw uploadLimit.toNat)
            | .readErr => UploadResult.err copyErrMsg
            | .done tw buf2 =>
              UploadResult.ok { scriptdir := sd, filename := part.filename, buf := buf2.take tw }) =
          .ok uf := hok
      clear hok
      by_cases hneg : uploadLimit < 0
      · rw [if_pos hneg] at hok2
        simp at hok2
      · rw [if_neg hneg] at hok2
        cases hcl : copyLoop part.streamErr uploadLimit.toNat part.content 0 0
            (List.replicate uploadLimit.toNat 0) with
        | tooLarge tw2 =>
          rw [hcl] at hok2
          simp at hok2
        | readErr =>
          rw [hcl] at hok2
          simp at hok2
        | done tw2 bufL =>
          rw [hcl] at hok2
          simp only [UploadResult.ok.injEq] at hok2
          have hinv : bufL.length = uploadLimit.toNat + tw2 ∧ tw2 ≤ uploadLimit.toNat := by
            rcases Nat.eq_zero_or_pos uploadLimit.toNat with hz | hpos
            · rw [hz] at hcl
              rw [copyLoop] at hcl
              simp at hcl
              obtain ⟨h1, h2⟩ := hcl
              simp [← h1, ← h2, hz]
            · rcases Nat.lt_or_ge uploadLimit.toNat part.content.length with hbig | hsmall
              · obtain ⟨tw3, heq3, _⟩ := (copyLoop_spec part.streamErr uploadLimit.toNat hpos
                  part.content.length part.content 0 (List.replicate uploadLimit.toNat 0) le_rfl
                  (by simp)).1 (by omega)
                rw [heq3] at hcl
                simp at hcl
              · have heq3 := (copyLoop_spec part.streamErr uploadLimit.toNat hpos
                  part.content.length part.content 0 (List.replicate uploadLimit.toNat 0) le_rfl
                  (by simp)).2 (by omega)
                rw [heq3] at hcl
                simp only [LoopResult.done.injEq] at hcl
                obtain ⟨h1, h2⟩ := hcl
                constructor
                · simp [← h2, ← h1]
                · omega
          rw [← hok2]
          refine ⟨rfl, ?_, bufL, tw2, rfl, rfl, ?_, hinv.1⟩
          · simp only [List.length_take, hinv.1]
            omega
          · simp only [List.length_take, hinv.1]
            omega

/-- C5 amended witness: the successful 1-byte construction from `reqC1`
satisfies the post-construction size bound. -/
theorem C5_post_invariant_witness : ufC1.buf.length ≤ (1 : Int).toNat :=
  (C5_post_invariant reqC1 "srv" 1 ufC1 partC1 rfl newUploadedFile_reqC1_eval).2.1

/-- C6: a first save to a fresh destination returns true and creates the
file with the buffer's bytes; an immediately following save to the same
destination returns false, writes nothing, and leaves the filesystem — in
particular the existing file's bytes — unmodified. -/
theorem C6_no_overwrite (ulf : UploadedFile) (givenFilename : String) (fs : FS)
    (hfresh : fs (saveDest ulf givenFilename) = none) :
    (uploadedfileSave ulf givenFilename fs).1 = true ∧
    (uploadedfileSave ulf givenFilename fs).2.1 (saveDest ulf givenFilename) = some ulf.buf ∧
    (uploadedfileSave (uploadedfileSave ulf givenFilename fs).2.2 givenFilename
        (uploadedfileSave ulf givenFilename fs).2.1).1 = false ∧
    (uploadedfileSave (uploadedfileSave ulf givenFilename fs).2.2 givenFilename
        (uploadedfileSave ulf givenFilename fs).2.1).2.1 =
      (uploadedfileSave ulf givenFilename fs).2.1 := by
  have hdest2 : saveDest { ulf with buf := ([] : List Nat) } givenFilename
      = saveDest ulf givenFilename := rfl
  simp [uploadedfileSave, write, hfresh, hdest2]

/-- C6 witness: saving the concrete artifact `ulfW` into an empty filesystem
succeeds on the first attempt. -/
theorem C6_no_overwrite_witness : (uploadedfileSave ulfW "" emptyFS).1 = true :=
  (C6_no_overwrite ulfW "" emptyFS rfl).1

/-- C7: if the Content-Length header is absent or unparsable (so `Atoi`
errs and yields 0), construction with a nonnegative limit does not fail at
the precheck: a diagnostic is logged and the result is exactly that of the
post-precheck processing, which relies entirely on the streaming ceiling. -/
theorem C7_unparsable_length_nonfatal (req : Request) (sd : String) (uploadLimit : Int)
    (habs : req.contentLengthHeader = none) (hnn : 0 ≤ uploadLimit) :
    newUploadedFile req sd uploadLimit = afterPrecheck req sd uploadLimit ∧
    newUploadedFileLogs req = ["Invalid Content-Length: "] := by
  have hno : ¬(req.contentLengthHeader.getD 0 - 20 > uploadLimit) := by
    rw [habs]
    simp only [Option.getD_none]
    omega
  exact ⟨by simp [newUploadedFile, hno], by simp [newUploadedFileLogs, habs]⟩

/-- C7 witness: the header-less request `reqC2` with a 5-byte limit is
processed past the precheck. -/
theorem C7_unparsable_length_nonfatal_witness :
    newUploadedFile reqC2 "srv" 5 = afterPrecheck reqC2 "srv" 5 :=
  (C7_unparsable_length_nonfatal reqC2 "srv" 5 rfl (by decide)).1

/-- C8: `saveIn(dir)` with an absolute `dir` resolves the destination as
`dir` joined with the artifact's own filename — independently of the script
(base) directory — and with a relative `dir` as the base directory joined
with `dir` joined with the artifact's own filename; in each case a save into
a fresh destination writes the artifact's bytes at exactly that path. -/
theorem C8_saveIn_resolution (ulf : UploadedFile) (dir : String) (fs : FS) :
    (filepathIsAbs dir = true →
      saveInDest ulf dir = filepathJoin [dir, ulf.filename] ∧
      (∀ sd, saveInDest { ulf with scriptdir := sd } dir = saveInDest ulf dir) ∧
      (fs (filepathJoin [dir, ulf.filename]) = none →
        (uploadedfileSaveIn ulf dir fs).2.1 (filepathJoin [dir, ulf.filename]) = some ulf.buf)) ∧
    (filepathIsAbs dir = false →
      saveInDest ulf dir = filepathJoin [ulf.scriptdir, dir, ulf.filename] ∧
      (fs (filepathJoin [ulf.scriptdir, dir, ulf.filename]) = none →
        (uploadedfileSaveIn ulf dir fs).2.1 (filepathJoin [ulf.scriptdir, dir, ulf.filename]) =
          some ulf.buf)) := by
  constructor
  · intro habs
    refine ⟨by simp [saveInDest, habs], fun sd => by simp [saveInDest, habs], fun hfresh => ?_⟩
    simp [uploadedfileSaveIn, write, saveInDest, habs, hfresh]
  · intro habs
    refine ⟨by simp [saveInDest, habs], fun hfresh => ?_⟩
    simp [uploadedfileSaveIn, write, saveInDest, habs, hfresh]

/-- C8 witness: for the concrete artifact `ulfW8`, an absolute directory
resolves without the base directory and a relative one resolves under it. -/
theorem C8_saveIn_resolution_witness :
    saveInDest ulfW8 "/data" = filepathJoin ["/data", "w.txt"] ∧
    saveInDest ulfW8 "sub" = filepathJoin ["web", "sub", "w.txt"] :=
  ⟨((C8_saveIn_resolution ulfW8 "/data" emptyFS).1 rfl).1,
   ((C8_saveIn_resolution ulfW8 "sub" emptyFS).2 rfl).1⟩

/-- C9: a save that reaches the copy step drains the artifact's buffer
(`io.Copy` consumes the `bytes.Buffer`): after one successful save the size
is 0 (no longer the original nonzero byte count), and a subsequent save to a
different fresh path succeeds but creates a zero-byte file rather than a
copy of the upload. -/
theorem C9_save_drains_buffer (ulf : UploadedFile) (g1 g2 : String) (fs : FS)
    (hne : ulf.buf ≠ [])
    (h1 : fs (saveDest ulf g1) = none)
    (h2 : (uploadedfileSave ulf g1 fs).2.1 (saveDest ulf g2) = none) :
    (uploadedfileSave ulf g1 fs).1 = true ∧
    uploadedfileSize (uploadedfileSave ulf g1 fs).2.2 = 0 ∧
    uploadedfileSize ulf ≠ 0 ∧
    (uploadedfileSave (uploadedfileSave ulf g1 fs).2.2 g2
        (uploadedfileSave ulf g1 fs).2.1).1 = true ∧
    (uploadedfileSave (uploadedfileSave ulf g1 fs).2.2 g2
        (uploadedfileSave ulf g1 fs).2.1).2.1 (saveDest ulf g2) = some ([] : List Nat) := by
  have hdest2 : saveDest { ulf with buf := ([] : List Nat) } g2 = saveDest ulf g2 := rfl
  simp only [uploadedfileSave, write, h1] at h2 ⊢
  refine ⟨rfl, rfl, ?_, ?_, ?_⟩
  · simpa [uploadedfileSize] using hne
  · simp [hdest2, h2]
  · simp [hdest2, h2]

/-- C9 witness: saving `ulfW` (bytes [9, 8]) and then saving again under the
name "b.txt" leaves a zero-byte file at the second destination. -/
theorem C9_save_drains_buffer_witness :
    (uploadedfileSave (uploadedfileSave ulfW "" emptyFS).2.2 "b.txt"
        (uploadedfileSave ulfW "" emptyFS).2.1).2.1 (saveDest ulfW "b.txt") =
      some ([] : List Nat) :=
  (C9_save_drains_buffer ulfW "" "b.txt" emptyFS (by decide) rfl (by decide)).2.2.2.2

/-- C10 counterexample: calling the constructor with the negative limit
-1 MiB (reachable from the Lua surface as `UploadedFile(field, -1)`) on a
request with no Content-Length header does NOT panic at
`make([]byte, uploadLimit)`: the precheck compares `clientLength = -20`
against the limit, finds it larger, and returns the documented
`(nil, error-message)` pair before the allocation is ever reached. -/
theorem C10_negative_limit_no_panic :
    newUploadedFile reqC2 "srv" (-1048576) = .err (tooLargePrecheckMsg (-20) (-1048576)) := by
  norm_num [newUploadedFile, reqC2, tooLargePrecheckMsg]

/-- C10 (amended): for a negative limit below -20 (every negative limit
reachable from the Lua surface is a negative multiple of 1 MiB), any request
whose Content-Length header is absent or declares a nonnegative value — as
real HTTP guarantees — is rejected at the precheck with a non-empty
too-large message returned as `(nil, message)`; the negative-size
`make([]byte, ...)` panic would require a declared length of at most
`limit + 20 < 0`, which such requests cannot carry. -/
theorem C10_negative_limit_returns_error (req : Request) (sd : String) (uploadLimit : Int)
    (hneg : uploadLimit < -20)
    (hdr : req.contentLengthHeader = none ∨
      ∃ d, req.contentLengthHeader = some d ∧ 0 ≤ d) :
    newUploadedFile req sd uploadLimit =
      .err (tooLargePrecheckMsg (req.contentLengthHeader.getD 0 - 20) uploadLimit) ∧
    (newUploadedFile req sd uploadLimit).tooLargeFailure := by
  have hval : 0 ≤ req.contentLengthHeader.getD 0 := by
    rcases hdr with h | ⟨d, hd, hdnn⟩
    · simp [h]
    · simpa [hd] using hdnn
  have hgt : req.contentLengthHeader.getD 0 - 20 > uploadLimit := by omega
  have heq : newUploadedFile req sd uploadLimit =
      .err (tooLargePrecheckMsg (req.contentLengthHeader.getD 0 - 20) uploadLimit) := by
    simp [newUploadedFile, hgt]
  exact ⟨heq, heq ▸ tooLargeFailure_precheck _ _⟩

/-- C10 amended witness: the -2 MiB limit with an absent header yields a
non-empty precheck rejection. -/
theorem C10_negative_limit_returns_error_witness :
    (newUploadedFile reqC2 "srv" (-2097152)).tooLargeFailure :=
  (C10_negative_limit_returns_error reqC2 "srv" (-2097152) (by decide) (Or.inl rfl)).2

end Algernon
